import Mathlib

/-!
Shallow embedding of LuxWatch (`src/luxwatch.py`): the trigger-matching
engine, the profile state machine, the brightness applier, the monitor
inventory fallback, and the versioned configuration store with its
migrations.  Python strings are Lean `String`s; the Python string
operations used by the source (`split`, `strip`, `lower`, `startswith`,
`os.path.basename`, slicing, `len`) are implemented structurally over the
character list so that all definitions evaluate inside the kernel.
Python dicts that the source indexes by monitor name are embedded as
association lists; Python ints are `Int`.
-/

namespace LuxWatch

/-- Split a character list at every separator character, keeping empty
pieces, as Python `str.split(sep)` does. -/
def splitChars (p : Char → Bool) : List Char → List (List Char)
  | [] => [[]]
  | c :: cs =>
    match splitChars p cs with
    | [] => if p c then [[], []] else [[c]]
    | h :: t => if p c then [] :: h :: t else (c :: h) :: t

/-- Python `str.lower()` (ASCII case folding, which is all the source uses). -/
def toLowerStr (s : String) : String := String.mk (s.data.map Char.toLower)

/-- Python `os.path.basename`: everything after the last `/`. -/
def basename (s : String) : String :=
  String.mk ((splitChars (fun c => c == '/') s.data).getLastD [])

/-- Python `str.split()` with no argument: split on whitespace, discarding
empty pieces. -/
def tokensOf (s : String) : List String :=
  ((splitChars (fun c => c.isWhitespace) s.data).filter (fun l => !l.isEmpty)).map String.mk

/-- Python `str.strip()`: drop leading and trailing whitespace. -/
def pyStrip (s : String) : String :=
  String.mk (((s.data.dropWhile Char.isWhitespace).reverse.dropWhile Char.isWhitespace).reverse)

/-- Python `s.startswith(q)`. -/
def pyStartsWith (s q : String) : Bool := List.isPrefixOf q.data s.data

/-- Current configuration schema version (`CONFIG_VERSION = 1`). -/
def CONFIG_VERSION : Int := 1

/-- Wrapper executables whose argument tokens are scanned (`SAFE_WRAPPERS`). -/
def SAFE_WRAPPERS : List String :=
  ["bwrap", "flatpak", "distrobox", "distrobox-enter",
   "pressure-vessel-adverb", "steam", "python", "python3", "sh", "bash",
   "gamescope", "mangoapp", "mangohud"]

/-- Paths filtered out of wrapper-argument matches (`IGNORE_PREFIXES`). -/
def IGNORE_PREFIXES : List String :=
  ["/var/lib/flatpak", "/usr/lib/extensions", "/run/flatpak"]

/-- Per-monitor settings of a game profile: `{"brightness": int, "enabled": bool}`. -/
structure MonConf where
  brightness : Int
  enabled : Bool
deriving Repr, DecidableEq

/-- A game profile: `{"name": ..., "triggers": [...], "monitors": {...}}`.
The monitors dict is embedded as an association list. -/
structure GameProfile where
  name : String
  triggers : List String
  monitors : List (String × MonConf)
deriving Repr, DecidableEq

/-- `trigger_app` truncation (`check_processes` line 278): the stripped
command line cut to its first 40 characters plus an ellipsis when longer
than 40 characters, else the full line. -/
def truncLabel (full_args : String) : String :=
  if full_args.data.length > 40 then String.mk (full_args.data.take 40 ++ "...".data)
  else full_args

/-- The wrapper-argument scan of `check_processes` (lines 269-279): some
argument token's lowercased basename equals the lowered trigger and the
token does not start with any ignore path. -/
def wrapperScan (trigger_lower : String) (args : List String) : Bool :=
  args.any (fun token =>
    toLowerStr (basename token) == trigger_lower &&
    !(IGNORE_PREFIXES.any (fun q => pyStartsWith token q)))

/-- Matching one `ps` output line against one lowered trigger
(`check_processes` lines 248-279).  Returns the `trigger_app` label on
success: the lowered executable basename for a direct match, the truncated
stripped command line for a wrapper match. -/
def matchLine (trigger_lower : String) (rawLine : String) : Option String :=
  let full_args := pyStrip rawLine
  if full_args.data.isEmpty then none
  else
    match tokensOf full_args with
    | [] => none
    | t0 :: rest =>
      let exe_name := toLowerStr (basename t0)
      if exe_name == trigger_lower then some exe_name
      else if SAFE_WRAPPERS.contains exe_name then
        if wrapperScan trigger_lower rest then some (truncLabel full_args)
        else none
      else none

/-- One trigger against the whole snapshot, in process-list order
(the `for full_args in out_args` loop). -/
def matchTrigger (trigger : String) (snapshot : List String) : Option String :=
  snapshot.findSome? (matchLine (toLowerStr trigger))

/-- All triggers of a profile, in trigger-list order
(the `for trigger in profile["triggers"]` loop). -/
def matchTriggers (triggers : List String) (snapshot : List String) : Option String :=
  triggers.findSome? (fun t => matchTrigger t snapshot)

/-- One profile: first trigger that matches wins, paired with the profile. -/
def matchProfile (p : GameProfile) (snapshot : List String) :
    Option (GameProfile × String) :=
  (matchTriggers p.triggers snapshot).map (fun lbl => (p, lbl))

/-- The whole search of `check_processes` (lines 244-283): profiles in list
order, first successful profile wins. -/
def matchProfiles (ps : List GameProfile) (snapshot : List String) :
    Option (GameProfile × String) :=
  ps.findSome? (fun p => matchProfile p snapshot)

/-- `set_brightness` (lines 225-231): the level actually sent to the
display tool is clamped to `[0, 100]`.  A command is the pair of the
monitor and the level sent. -/
def setBrightnessCmd (monitor_id : String) (level : Int) : String × Int :=
  (monitor_id, max 0 (min 100 level))

/-- The `monitors` dict of `desktop_profile`: monitor name to brightness. -/
abbrev DesktopSettings := List (String × Int)

/-- `apply_desktop_profile` (lines 303-311): per connected monitor, the
configured desktop brightness, default 70. -/
def apply_desktop_profile (connected : List String) (settings : DesktopSettings) :
    List (String × Int) :=
  connected.map (fun mon => setBrightnessCmd mon ((settings.lookup mon).getD 70))

/-- `apply_game_profile` (lines 313-324): per connected monitor, look up
`{brightness, enabled}` with default `{100, true}`; a disabled monitor is
driven to 0, an enabled one to its configured brightness. -/
def apply_game_profile (connected : List String) (profile : GameProfile) :
    List (String × Int) :=
  connected.map (fun mon =>
    let m_conf := (profile.monitors.lookup mon).getD ⟨100, true⟩
    if !m_conf.enabled then setBrightnessCmd mon 0
    else setBrightnessCmd mon m_conf.brightness)

/-- The mutable scan state of `LuxWatch`: `current_state` and
`active_profile_name` (lines 158-159). -/
structure AppState where
  current_state : String
  active_profile_name : Option String
deriving Repr, DecidableEq

/-- The state set by `LuxWatch.__init__` (lines 158-159). -/
def initState : AppState := ⟨"unknown", none⟩

/-- Which apply routine a tick invoked. -/
inductive ApplyCall where
  | game (p : GameProfile)
  | desktop
deriving Repr, DecidableEq

/-- The state-machine part of `check_processes` (lines 285-298), applied to
the result of the match search. -/
def stateStep (st : AppState) (found : Option (GameProfile × String)) :
    AppState × Option ApplyCall :=
  match found with
  | some (p, _) =>
    if st.active_profile_name ≠ some p.name ∨ st.current_state ≠ "game" then
      (⟨"game", some p.name⟩, some (ApplyCall.game p))
    else (st, none)
  | none =>
    if st.current_state ≠ "desktop" then
      (⟨"desktop", none⟩, some ApplyCall.desktop)
    else (st, none)

/-- One tick of `check_processes` (lines 233-298) on a successfully
captured snapshot. -/
def check_processes (gps : List GameProfile) (st : AppState)
    (snapshot : List String) : AppState × Option ApplyCall :=
  stateStep st (matchProfiles gps snapshot)

/-- One tick including the `try`/`except` wrapper (lines 236-301): `none`
stands for the process-listing query raising, which lands in the `except`
handler with the state untouched and nothing applied. -/
def tick (gps : List GameProfile) (st : AppState)
    (scan : Option (List String)) : AppState × Option ApplyCall :=
  match scan with
  | none => (st, none)
  | some snapshot => check_processes gps st snapshot

/-- The brightness commands issued by a tick's apply call. -/
def commandsOf (connected : List String) (settings : DesktopSettings) :
    Option ApplyCall → List (String × Int)
  | some (ApplyCall.game p) => apply_game_profile connected p
  | some ApplyCall.desktop => apply_desktop_profile connected settings
  | none => []

/-- Lexicographic code-point comparison on character lists: Python string
`<=`. -/
def lexLe : List Char → List Char → Bool
  | [], _ => true
  | _ :: _, [] => false
  | a :: as, b :: bs =>
    if a.toNat < b.toNat then true
    else if b.toNat < a.toNat then false
    else lexLe as bs

/-- Python `<=` on strings. -/
def strLe (a b : String) : Prop := lexLe a.data b.data = true

instance : DecidableRel strLe :=
  fun a b => inferInstanceAs (Decidable (lexLe a.data b.data = true))

/-- Python `sorted` on strings.  On a total order every comparison sort
returns the same list; embedded as insertion sort. -/
def pySorted (l : List String) : List String := List.insertionSort strLe l

/-- The hard-coded fallback monitor list (line 206). -/
def fallbackMonitors : List String := ["HDMI-A-1", "DP-1", "DP-2", "DP-3"]

/-- `get_connected_monitors` (lines 186-208), abstracted over what the two
display-tool queries accumulated into `monitors` (`[]` covers both total
failure and success with zero connected outputs). -/
def get_connected_monitors (queried : List String) : List String :=
  let monitors := if queried.isEmpty then fallbackMonitors else queried
  pySorted monitors

/-- The desktop profile: a monitors dict of plain brightness ints. -/
structure DesktopProfile where
  monitors : List (String × Int)
deriving Repr, DecidableEq

/-- A legacy (WIP-format) per-monitor entry; every field is read with
`dict.get` and a default, so each is optional. -/
structure LegacyMonitor where
  inactive_brightness : Option Int
  active_brightness : Option Int
  enabled : Option Bool
deriving Repr, DecidableEq

/-- A legacy (WIP-format) profile; `name` is read unconditionally
(`p["name"]`), the rest with defaults. -/
structure LegacyProfile where
  name : String
  triggers : Option (List String)
  monitors : List (String × LegacyMonitor)
deriving Repr, DecidableEq

/-- An alpha-format per-monitor entry (`settings.get("game", 100)`). -/
structure AlphaMonitor where
  game : Option Int
deriving Repr, DecidableEq

/-- A parsed configuration document, holding every key that `load_config`
and the migrations read.  A current-shape config uses `desktop_profile`
and `game_profiles`; legacy shapes use `profiles` (WIP) or
`games`/`monitors` (alpha).  `none` is an absent key. -/
structure RawDoc where
  config_version : Option Int
  desktop_profile : Option DesktopProfile
  game_profiles : Option (List GameProfile)
  profiles : Option (List LegacyProfile)
  games : Option (List String)
  monitors : Option (List (String × AlphaMonitor))
deriving Repr, DecidableEq

/-- The schema defaults of `load_config` (lines 44-48). -/
def defaults : RawDoc :=
  { config_version := some CONFIG_VERSION
    desktop_profile := some ⟨[]⟩
    game_profiles := some []
    profiles := none
    games := none
    monitors := none }

/-- `migrate_wip_to_v1` (lines 77-104). -/
def migrate_wip_to_v1 (old_data : RawDoc) : RawDoc :=
  let old_profiles := old_data.profiles.getD []
  let desktop_mons :=
    match old_profiles with
    | [] => []
    | first :: _ =>
      first.monitors.map (fun ms => (ms.1, ms.2.inactive_brightness.getD 70))
  let game_profiles := old_profiles.map (fun p =>
    GameProfile.mk p.name (p.triggers.getD [])
      (p.monitors.map (fun ms =>
        (ms.1, MonConf.mk (ms.2.active_brightness.getD 100) (ms.2.enabled.getD true)))))
  { config_version := some 1
    desktop_profile := some ⟨desktop_mons⟩
    game_profiles := some game_profiles
    profiles := none
    games := none
    monitors := none }

/-- `migrate_alpha_to_v1` (lines 106-122). -/
def migrate_alpha_to_v1 (old_data : RawDoc) : RawDoc :=
  let game_profile := GameProfile.mk "Imported Games" (old_data.games.getD [])
    ((old_data.monitors.getD []).map (fun ms =>
      (ms.1, MonConf.mk (ms.2.game.getD 100) true)))
  { config_version := some 1
    desktop_profile := some ⟨[]⟩
    game_profiles := some [game_profile]
    profiles := none
    games := none
    monitors := none }

/-- Outcome of reading and JSON-parsing the configuration file: the file
does not exist, opening or parsing it raised, or it parsed to a document. -/
inductive ConfigFile where
  | missing
  | unreadable
  | parsed (data : RawDoc)
deriving Repr, DecidableEq

/-- `load_config` (lines 43-75).  The `.bak` copy and the log lines are
side effects with no bearing on the returned document and are not
modelled. -/
def load_config : ConfigFile → RawDoc
  | ConfigFile.missing => defaults
  | ConfigFile.unreadable => defaults
  | ConfigFile.parsed data =>
    let file_version := data.config_version.getD 0
    if file_version < CONFIG_VERSION then
      if file_version == 0 then
        if data.profiles.isSome && !data.desktop_profile.isSome then
          migrate_wip_to_v1 data
        else if data.desktop_profile.isSome then
          { data with config_version := some 1 }
        else if data.games.isSome then
          migrate_alpha_to_v1 data
        else data
      else data
    else data

/-- `add_profile` (lines 135-142) on the `game_profiles` list. -/
def add_profile (gps : List GameProfile) (name : String) : List GameProfile :=
  gps ++ [GameProfile.mk name [] []]

/-- `delete_profile` (lines 144-147): delete by position when
`0 <= index < len(game_profiles)`, otherwise do nothing. -/
def delete_profile (gps : List GameProfile) (index : Int) : List GameProfile :=
  if 0 ≤ index ∧ index < gps.length then gps.eraseIdx index.toNat else gps

/-! Basic facts about the lexicographic comparison, needed to reason about
`pySorted`. -/

theorem lexLe_total : ∀ as bs : List Char, lexLe as bs = true ∨ lexLe bs as = true := by
  intro as
  induction as with
  | nil => intro bs; left; rfl
  | cons a as ih =>
    intro bs
    cases bs with
    | nil => right; rfl
    | cons b bs =>
      simp only [lexLe]
      rcases Nat.lt_trichotomy a.toNat b.toNat with h | h | h
      · left; simp [h]
      · have h1 : ¬ a.toNat < b.toNat := by omega
        have h2 : ¬ b.toNat < a.toNat := by omega
        simpa [h1, h2] using ih bs
      · right; simp [h]

theorem lexLe_trans :
    ∀ as bs cs : List Char,
      lexLe as bs = true → lexLe bs cs = true → lexLe as cs = true := by
  intro as
  induction as with
  | nil => intro bs cs _ _; rfl
  | cons a as ih =>
    intro bs cs hab hbc
    cases bs with
    | nil => simp [lexLe] at hab
    | cons b bs =>
      cases cs with
      | nil => simp [lexLe] at hbc
      | cons c cs =>
        simp only [lexLe] at hab hbc ⊢
        rcases Nat.lt_trichotomy a.toNat b.toNat with h1 | h1 | h1 <;>
          rcases Nat.lt_trichotomy b.toNat c.toNat with h2 | h2 | h2 <;>
          first
            | (simp only [if_pos (by omega : a.toNat < c.toNat)])
            | (have ha : ¬ a.toNat < b.toNat := by omega
               have hb : ¬ b.toNat < a.toNat := by omega
               have hc : ¬ b.toNat < c.toNat := by omega
               have hd : ¬ c.toNat < b.toNat := by omega
               have he : ¬ a.toNat < c.toNat := by omega
               have hf : ¬ c.toNat < a.toNat := by omega
               simp only [ha, hb, hc, hd, he, hf, if_false] at hab hbc ⊢
               exact ih bs cs hab hbc)
            | (exfalso
               first
                 | simp [if_neg (by omega : ¬ b.toNat < c.toNat),
                         if_pos (by omega : c.toNat < b.toNat)] at hbc
                 | simp [if_neg (by omega : ¬ a.toNat < b.toNat),
                         if_pos (by omega : b.toNat < a.toNat)] at hab)

instance : IsTotal String strLe := ⟨fun a b => lexLe_total a.data b.data⟩

instance : IsTrans String strLe := ⟨fun a b c => lexLe_trans a.data b.data c.data⟩

end LuxWatch

namespace LuxWatch

/-- C9 — a tick whose process-listing query fails leaves the state exactly
as it was, invokes no apply routine, issues no brightness command, and is
not propagated (the tick still returns normally). -/
theorem scan_failure_no_action :
    ∀ (gps : List GameProfile) (st : AppState) (connected : List String)
      (settings : DesktopSettings),
      tick gps st none = (st, none) ∧
      commandsOf connected settings (tick gps st none).2 = [] := by
  intro gps st connected settings
  exact ⟨rfl, rfl⟩

/-- C8 — adding a profile (appended with empty triggers and monitors) and
then deleting at its resulting index restores the game-profile list, and an
out-of-range delete changes nothing. -/
theorem add_delete_roundtrip :
    (∀ (gps : List GameProfile) (name : String),
      delete_profile (add_profile gps name) (gps.length : Int) = gps)
    ∧ (∀ (gps : List GameProfile) (index : Int),
      ¬ (0 ≤ index ∧ index < (gps.length : Int)) → delete_profile gps index = gps) := by
  constructor
  · intro gps name
    have hrange : (0 : Int) ≤ (gps.length : Int) ∧
        (gps.length : Int) < ((add_profile gps name).length : Int) := by
      constructor
      · exact Int.ofNat_nonneg _
      · simp [add_profile]
    rw [delete_profile, if_pos hrange]
    rw [add_profile, Int.toNat_ofNat]
    rw [List.eraseIdx_append_of_length_le (Nat.le_refl _)]
    simp
  · intro gps index h
    rw [delete_profile, if_neg h]

/-- C8 witness: a concrete out-of-range delete is a no-op. -/
theorem add_delete_roundtrip_witness :
    delete_profile [] (-1) = [] :=
  add_delete_roundtrip.2 [] (-1) (by decide)

/-- C1 counterexample — at startup `current_state` is `"unknown"`, not
`"desktop"`; consequently a first tick in which the matcher yields no
profile does act: it invokes the desktop apply routine, changes the state,
and issues a brightness command for a connected monitor. -/
theorem initial_state_counterexample :
    initState.current_state ≠ "desktop" ∧
    (check_processes [] initState []).2 = some ApplyCall.desktop ∧
    (check_processes [] initState []).1 ≠ initState ∧
    commandsOf ["DP-1"] [] (check_processes [] initState []).2 = [("DP-1", 70)] := by
  refine ⟨by decide, rfl, by decide, rfl⟩

/-- C1 amended — at startup the state is `"unknown"` (not Desktop); on
every tick in which the matcher yields no profile while in that startup
state, the machine transitions to Desktop and invokes the desktop apply
routine. -/
theorem initial_state_amended :
    initState.current_state = "unknown" ∧
    ∀ (gps : List GameProfile) (snap : List String),
      matchProfiles gps snap = none →
      check_processes gps initState snap =
        (AppState.mk "desktop" none, some ApplyCall.desktop) := by
  refine ⟨rfl, ?_⟩
  intro gps snap h
  rw [check_processes, h, stateStep]
  rw [if_pos (by decide : initState.current_state ≠ "desktop")]

/-- C1 amended, witness at a concrete no-match tick. -/
theorem initial_state_amended_witness :
    check_processes [] initState [] =
      (AppState.mk "desktop" none, some ApplyCall.desktop) :=
  initial_state_amended.2 [] [] rfl

/-- C2 counterexample — an unrecognized version-0 document (no
`profiles`, `desktop_profile`, or `games` key) is returned by `load_config`
with its version still 0, not the current schema version. -/
theorem load_version_counterexample :
    (load_config (ConfigFile.parsed ⟨some 0, none, none, none, none, none⟩)).config_version
      ≠ some CONFIG_VERSION := by decide

/-- C2 amended — `load_config` yields version = current for a missing or
unreadable file and for every version-0 document carrying at least one of
the `profiles` / `desktop_profile` / `games` keys; every other parsed
document (an unrecognized version-0 shape, or any nonzero stored version,
including versions above current) is returned completely unchanged, so its
version equals the current schema version only if it already was exactly
the current version. -/
theorem load_version_amended :
    (load_config ConfigFile.missing).config_version = some CONFIG_VERSION
    ∧ (load_config ConfigFile.unreadable).config_version = some CONFIG_VERSION
    ∧ (∀ d : RawDoc, d.config_version.getD 0 = 0 →
        (d.profiles.isSome = true ∨ d.desktop_profile.isSome = true ∨
          d.games.isSome = true) →
        (load_config (ConfigFile.parsed d)).config_version = some CONFIG_VERSION)
    ∧ (∀ d : RawDoc, ¬ (d.config_version.getD 0 = 0 ∧
          (d.profiles.isSome = true ∨ d.desktop_profile.isSome = true ∨
            d.games.isSome = true)) →
        load_config (ConfigFile.parsed d) = d) := by
  refine ⟨rfl, rfl, ?_, ?_⟩
  · intro d h0 hkey
    rw [load_config]
    rw [h0]
    rw [if_pos (by norm_num [CONFIG_VERSION])]
    rw [if_pos (by norm_num)]
    by_cases hp : d.profiles.isSome = true ∧ d.desktop_profile = none
    · rw [if_pos (by simp [hp.1, hp.2])]
      simp [migrate_wip_to_v1, CONFIG_VERSION]
    · rw [if_neg (by
        intro hcontra
        exact hp ⟨(Bool.and_eq_true _ _).mp hcontra |>.1,
          by simpa using ((Bool.and_eq_true _ _).mp hcontra).2⟩)]
      by_cases hd : d.desktop_profile.isSome = true
      · rw [if_pos hd]; simp [CONFIG_VERSION]
      · rw [if_neg (by simpa using hd)]
        have hg : d.games.isSome = true := by
          rcases hkey with hk | hk | hk
          · exfalso
            exact hp ⟨hk, Option.not_isSome_iff_eq_none.mp (by simpa using hd)⟩
          · exact absurd hk (by simpa using hd)
          · exact hk
        rw [if_pos hg]
        simp [migrate_alpha_to_v1, CONFIG_VERSION]
  · intro d h
    rw [load_config]
    by_cases h0 : d.config_version.getD 0 = 0
    · have hkeys : ¬ (d.profiles.isSome = true ∨ d.desktop_profile.isSome = true ∨
          d.games.isSome = true) := fun hk => h ⟨h0, hk⟩
      push_neg at hkeys
      obtain ⟨hp, hd, hg⟩ := hkeys
      rw [h0]
      rw [if_pos (by norm_num [CONFIG_VERSION])]
      rw [if_pos (by norm_num)]
      rw [if_neg (by simp [hp])]
      rw [if_neg hd]
      rw [if_neg hg]
    · by_cases hlt : d.config_version.getD 0 < CONFIG_VERSION
      · rw [if_pos hlt]
        rw [if_neg (by simpa using h0)]
      · rw [if_neg hlt]

/-- C2 amended, witness: a version-0 document holding only a
`desktop_profile` key is bumped to the current version. -/
theorem load_version_amended_witness :
    (load_config (ConfigFile.parsed
      ⟨some 0, some ⟨[]⟩, none, none, none, none⟩)).config_version
      = some CONFIG_VERSION :=
  load_version_amended.2.2.1 ⟨some 0, some ⟨[]⟩, none, none, none, none⟩
    (by decide) (Or.inr (Or.inl (by decide)))

/-- C3 — the search examines profiles in list order, triggers in list
order within a profile, and process entries in snapshot order, stopping at
the first success at every level; with profiles A and B both triggered by
`"steam"` and a running process whose executable basename is `steam`,
profile A is selected. -/
theorem match_precedence_order :
    (∀ (p : GameProfile) (ps : List GameProfile) (snap : List String),
      matchProfiles (p :: ps) snap =
        (matchProfile p snap).orElse (fun _ => matchProfiles ps snap))
    ∧ (∀ (t : String) (ts : List String) (snap : List String),
      matchTriggers (t :: ts) snap =
        (matchTrigger t snap).orElse (fun _ => matchTriggers ts snap))
    ∧ (∀ (t line : String) (ls : List String),
      matchTrigger t (line :: ls) =
        (matchLine (toLowerStr t) line).orElse (fun _ => matchTrigger t ls))
    ∧ matchProfiles [⟨"A", ["steam"], []⟩, ⟨"B", ["steam"], []⟩] ["steam"]
        = some (⟨"A", ["steam"], []⟩, "steam") := by
  refine ⟨?_, ?_, ?_, by decide⟩
  · intro p ps snap
    rw [matchProfiles, List.findSome?_cons]
    cases h : matchProfile p snap <;> simp [h, Option.orElse, matchProfiles]
  · intro t ts snap
    rw [matchTriggers, List.findSome?_cons]
    cases h : matchTrigger t snap <;> simp [h, Option.orElse, matchTriggers]
  · intro t line ls
    rw [matchTrigger, List.findSome?_cons]
    cases h : matchLine (toLowerStr t) line <;> simp [h, Option.orElse, matchTrigger]

/-- C4 — for a process line whose first token's lowercased basename is a
safe wrapper (and is not itself the trigger), the trigger matches exactly
when some argument token's lowercased basename equals the lowered trigger
and that token starts with no ignore path; the label of such a match is the
stripped line truncated to 40 characters plus an ellipsis when longer, else
the full line.  A token under `/var/lib/flatpak` produces no match. -/
theorem wrapper_match_rule :
    (∀ (trigger line t0 : String) (rest : List String),
      tokensOf (pyStrip line) = t0 :: rest →
      SAFE_WRAPPERS.contains (toLowerStr (basename t0)) = true →
      toLowerStr (basename t0) ≠ toLowerStr trigger →
      (matchLine (toLowerStr trigger) line =
          (if wrapperScan (toLowerStr trigger) rest then
            some (if (pyStrip line).data.length > 40 then
                String.mk ((pyStrip line).data.take 40 ++ "...".data)
              else pyStrip line)
          else none))
      ∧ (wrapperScan (toLowerStr trigger) rest = true ↔
          ∃ token ∈ rest, toLowerStr (basename token) = toLowerStr trigger ∧
            ∀ q ∈ IGNORE_PREFIXES, pyStartsWith token q = false))
    ∧ matchLine "mygame" "/usr/bin/bwrap --args /var/lib/flatpak/ext/mygame" = none
    ∧ matchLine "mygame" "/usr/bin/bwrap --args /home/user/games/mygame"
        = some "/usr/bin/bwrap --args /home/user/games/m..." := by
  refine ⟨?_, by decide, by decide⟩
  intro trigger line t0 rest htok hwrap hne
  have hdata : (pyStrip line).data.isEmpty = false := by
    cases h : (pyStrip line).data with
    | nil =>
      exfalso
      have hzero : tokensOf (pyStrip line) = [] := by
        simp [tokensOf, h, splitChars]
      rw [htok] at hzero
      exact List.cons_ne_nil _ _ hzero
    | cons c cs => rfl
  constructor
  · have hbeq : (toLowerStr (basename t0) == toLowerStr trigger) = false :=
      beq_eq_false_iff_ne.mpr hne
    simp only [matchLine, hdata, Bool.false_eq_true, if_false, htok, hbeq, hwrap,
      if_true, truncLabel]
  · simp only [wrapperScan, List.any_eq_true, Bool.and_eq_true, beq_iff_eq,
      Bool.not_eq_true', List.any_eq_false]
    constructor
    · rintro ⟨token, hmem, heq, hall⟩
      exact ⟨token, hmem, heq, fun q hq => by simpa using hall q hq⟩
    · rintro ⟨token, hmem, heq, hall⟩
      exact ⟨token, hmem, heq, fun q hq => by simpa using hall q hq⟩

/-- C4, witness at a concrete wrapper launch line. -/
theorem wrapper_match_rule_witness :
    matchLine (toLowerStr "mygame") "/usr/bin/bwrap --args /home/user/games/mygame" =
      some "/usr/bin/bwrap --args /home/user/games/m..." := by
  have h := wrapper_match_rule.1 "mygame" "/usr/bin/bwrap --args /home/user/games/mygame"
    "/usr/bin/bwrap" ["--args", "/home/user/games/mygame"]
    (by decide) (by decide) (by decide)
  rw [h.1]
  decide

/-- C5 — when two consecutive ticks both resolve to game profiles with the
same name and the first tick causes the transition, the game apply routine
is invoked exactly once (on that first tick); the second tick invokes no
apply routine, issues no brightness command, and leaves the state
unchanged. -/
theorem debounce_same_profile (gps : List GameProfile) (st0 : AppState)
    (snap1 snap2 : List String) (p1 p2 : GameProfile) (l1 l2 : String)
    (h1 : matchProfiles gps snap1 = some (p1, l1))
    (h2 : matchProfiles gps snap2 = some (p2, l2))
    (hname : p1.name = p2.name)
    (htrans : st0.active_profile_name ≠ some p1.name ∨ st0.current_state ≠ "game") :
    (check_processes gps st0 snap1).2 = some (ApplyCall.game p1) ∧
    check_processes gps (check_processes gps st0 snap1).1 snap2 =
      ((check_processes gps st0 snap1).1, none) ∧
    ∀ (connected : List String) (settings : DesktopSettings),
      commandsOf connected settings
        (check_processes gps (check_processes gps st0 snap1).1 snap2).2 = [] := by
  have e1 : check_processes gps st0 snap1 =
      (AppState.mk "game" (some p1.name), some (ApplyCall.game p1)) := by
    rw [check_processes, h1, stateStep, if_pos htrans]
  have e2 : check_processes gps (AppState.mk "game" (some p1.name)) snap2 =
      (AppState.mk "game" (some p1.name), none) := by
    rw [check_processes, h2, stateStep]
    rw [if_neg (by push_neg; exact ⟨by rw [hname], rfl⟩)]
  rw [e1]
  simp [e2, commandsOf]

/-- C5, witness: the same profile matched on two consecutive ticks starting
from the startup state applies once and then debounces. -/
theorem debounce_same_profile_witness :
    (check_processes [GameProfile.mk "A" ["steam"] []] initState ["steam"]).2 =
      some (ApplyCall.game (GameProfile.mk "A" ["steam"] [])) ∧
    check_processes [GameProfile.mk "A" ["steam"] []]
        (check_processes [GameProfile.mk "A" ["steam"] []] initState ["steam"]).1
        ["steam"] =
      ((check_processes [GameProfile.mk "A" ["steam"] []] initState ["steam"]).1,
        none) := by
  have h := debounce_same_profile [GameProfile.mk "A" ["steam"] []] initState
    ["steam"] ["steam"] (GameProfile.mk "A" ["steam"] [])
    (GameProfile.mk "A" ["steam"] []) "steam" "steam"
    (by decide) (by decide) rfl (by decide)
  exact ⟨h.1, h.2.1⟩

/-- C6 — every brightness level actually sent is clamped to `[0, 100]`
(a configured 150 is sent as 100), and a monitor whose game-profile entry
has `enabled = false` is driven to 0 regardless of its configured
brightness. -/
theorem brightness_clamp_disabled :
    (∀ (mon : String) (level : Int),
      0 ≤ (setBrightnessCmd mon level).2 ∧ (setBrightnessCmd mon level).2 ≤ 100)
    ∧ (∀ mon : String, setBrightnessCmd mon 150 = (mon, 100))
    ∧ (∀ (connected : List String) (p : GameProfile) (c : String × Int),
        c ∈ apply_game_profile connected p → 0 ≤ c.2 ∧ c.2 ≤ 100)
    ∧ (∀ (connected : List String) (settings : DesktopSettings) (c : String × Int),
        c ∈ apply_desktop_profile connected settings → 0 ≤ c.2 ∧ c.2 ≤ 100)
    ∧ (∀ (connected : List String) (p : GameProfile) (mon : String) (conf : MonConf),
        mon ∈ connected → p.monitors.lookup mon = some conf → conf.enabled = false →
        (mon, (0 : Int)) ∈ apply_game_profile connected p) := by
  have hcl : ∀ (mon : String) (level : Int),
      0 ≤ (setBrightnessCmd mon level).2 ∧ (setBrightnessCmd mon level).2 ≤ 100 := by
    intro mon level
    simp only [setBrightnessCmd]
    omega
  refine ⟨hcl, ?_, ?_, ?_, ?_⟩
  · intro mon
    simp [setBrightnessCmd]
  · intro connected p c hc
    simp only [apply_game_profile, List.mem_map] at hc
    obtain ⟨mon, _, heq⟩ := hc
    rw [← heq]
    split
    · exact hcl mon 0
    · exact hcl mon _
  · intro connected settings c hc
    simp only [apply_desktop_profile, List.mem_map] at hc
    obtain ⟨mon, _, heq⟩ := hc
    rw [← heq]
    exact hcl mon _
  · intro connected p mon conf hmem hlook hen
    apply List.mem_map.mpr
    refine ⟨mon, hmem, ?_⟩
    simp [hlook, hen, setBrightnessCmd]

/-- C6, witness: a disabled monitor configured at 150 is driven to 0. -/
theorem brightness_clamp_disabled_witness :
    ("DP-1", (0 : Int)) ∈
      apply_game_profile ["DP-1"]
        (GameProfile.mk "G" [] [("DP-1", MonConf.mk 150 false)]) :=
  brightness_clamp_disabled.2.2.2.2 ["DP-1"]
    (GameProfile.mk "G" [] [("DP-1", MonConf.mk 150 false)]) "DP-1"
    (MonConf.mk 150 false) (by decide) (by decide) rfl

/-- C7 — WIP-format migration with a non-empty legacy profile list: the
desktop profile takes the first legacy profile's per-monitor
`inactive_brightness` (70 when absent), and every legacy profile becomes a
game profile with `active_brightness` as its brightness (100 when absent)
and `enabled` defaulting to true; concretely, a legacy monitor `DP-1` with
`inactive_brightness=60, active_brightness=90, enabled=true` yields desktop
brightness 60 and game entry `{brightness: 90, enabled: true}`. -/
theorem migrate_wip_correct :
    (∀ (v : Option Int) (dp : Option DesktopProfile)
      (gp : Option (List GameProfile)) (gm : Option (List String))
      (mo : Option (List (String × AlphaMonitor)))
      (first : LegacyProfile) (rest : List LegacyProfile),
      migrate_wip_to_v1 ⟨v, dp, gp, some (first :: rest), gm, mo⟩ =
        ⟨some 1,
         some ⟨first.monitors.map
           (fun ms => (ms.1, ms.2.inactive_brightness.getD 70))⟩,
         some ((first :: rest).map (fun p =>
           GameProfile.mk p.name (p.triggers.getD [])
             (p.monitors.map (fun ms =>
               (ms.1, MonConf.mk (ms.2.active_brightness.getD 100)
                 (ms.2.enabled.getD true)))))),
         none, none, none⟩)
    ∧ (migrate_wip_to_v1 ⟨some 0, none, none,
        some [⟨"Game1", some ["mygame"],
          [("DP-1", ⟨some 60, some 90, some true⟩)]⟩],
        none, none⟩).desktop_profile = some ⟨[("DP-1", 60)]⟩
    ∧ (migrate_wip_to_v1 ⟨some 0, none, none,
        some [⟨"Game1", some ["mygame"],
          [("DP-1", ⟨some 60, some 90, some true⟩)]⟩],
        none, none⟩).game_profiles =
        some [⟨"Game1", ["mygame"], [("DP-1", ⟨90, true⟩)]⟩] := by
  refine ⟨?_, by decide, by decide⟩
  intro v dp gp gm mo first rest
  rfl

/-- C10 — whatever the display queries accumulated, the monitor list
returned is non-empty and sorted ascending; when the queries yielded no
monitors at all, it is exactly the sorted hard-coded fallback. -/
theorem connected_monitors_sorted_nonempty :
    ∀ queried : List String,
      get_connected_monitors queried ≠ [] ∧
      List.Sorted strLe (get_connected_monitors queried) ∧
      (queried = [] → get_connected_monitors queried =
        ["DP-1", "DP-2", "DP-3", "HDMI-A-1"]) := by
  intro queried
  have hne : (if queried.isEmpty then fallbackMonitors else queried) ≠ [] := by
    cases queried with
    | nil => simp [fallbackMonitors]
    | cons a as => simp
  refine ⟨?_, ?_, ?_⟩
  · intro h
    have h' : List.insertionSort strLe
        (if queried.isEmpty then fallbackMonitors else queried) = [] := h
    have hperm := List.perm_insertionSort strLe
      (if queried.isEmpty then fallbackMonitors else queried)
    rw [h'] at hperm
    exact hne hperm.symm.eq_nil
  · exact List.sorted_insertionSort strLe _
  · intro h
    subst h
    decide

/-- C10, witness: with nothing reported by the queries, the fallback list
comes back sorted. -/
theorem connected_monitors_sorted_nonempty_witness :
    get_connected_monitors [] = ["DP-1", "DP-2", "DP-3", "HDMI-A-1"] :=
  (connected_monitors_sorted_nonempty []).2.2 rfl

end LuxWatch
